import Mathlib

/-!
# PingPong Physics: fixed-point ball physics

A shallow embedding of `core/fixed_point.h`, `core/trig_tables.h` and
`states/pingpong.c`.

Machine model.  The code targets GBDK (SDCC for the Game Boy): `int` is 16 bits
wide, `UBYTE`/`uint8_t` is an unsigned 8-bit value, `fixed_t`/`int16_t` a signed
16-bit value and `uint16_t` an unsigned 16-bit value.  Signed values are
embedded as `Int`, unsigned values as `Nat`.  A conversion to a signed type is
written `wrap16`/`wrap8` (two's complement wrap-around), a conversion to an
unsigned type is a `% 2^w`.  Signed arithmetic that leaves the 16-bit range
wraps around, as the compiled code does.  A left shift by `k` is a
multiplication by `2^k` (also of a negative value), a right shift of a signed
value is the arithmetic shift, that is the floor division by `2^k` (`/` on
`Int` with a positive divisor).  The C operator `/` truncates toward zero
(`Int.tdiv`) and has no value for a zero divisor: such a division is the
fault `none`.

The single global `ball` is passed explicitly: every operation takes the ball
state and returns the new one.  The three `extern UBYTE` engine settings are
gathered in `pingpong_settings`.
-/

namespace PingPong

/-! ## Machine integers -/

/-- Two's complement conversion to a signed 16-bit value (`int16_t`, `int`). -/
def wrap16 (n : Int) : Int := (n + 32768) % 65536 - 32768

/-- Two's complement conversion to a signed 8-bit value (`int8_t`). -/
def wrap8 (n : Int) : Int := (n + 128) % 256 - 128

/-- Conversion to `UBYTE` (unsigned 8-bit). -/
def toUBYTE (n : Int) : Nat := (n % 256).toNat

/-- Conversion to `uint16_t` (unsigned 16-bit). -/
def toU16 (n : Int) : Nat := (n % 65536).toNat

/-- The C operator `/` on signed operands: truncation toward zero, no value
for a zero divisor. -/
def c_div (a b : Int) : Option Int :=
  if b = 0 then none else some (Int.tdiv a b)

/-! ## core/fixed_point.h -/

def FP_SHIFT : Nat := 8

/-- The constant `1 << FP_SHIFT`. -/
def FP_ONE : Int := 2 ^ FP_SHIFT

/-- The constant `FP_ONE >> 1`. -/
def FP_HALF : Int := FP_ONE / 2

/-- The macro `(fixed_t)((x) << FP_SHIFT)`. -/
def INT_TO_FP (x : Int) : Int := wrap16 (x * 2 ^ FP_SHIFT)

/-- The macro `(int8_t)((x) >> FP_SHIFT)`. -/
def FP_TO_INT (x : Int) : Int := wrap8 (x / 2 ^ FP_SHIFT)

/-- The macro `(int8_t)(((x) + FP_HALF) >> FP_SHIFT)`; the sum is a 16-bit
`int`. -/
def FP_TO_INT_ROUND (x : Int) : Int := wrap8 (wrap16 (x + FP_HALF) / 2 ^ FP_SHIFT)

/-- The macro `(fixed_t)(((int32_t)(a) * (int32_t)(b)) >> FP_SHIFT)`.  The
product of two 16-bit values fits the 32-bit intermediate type. -/
def FP_MUL (a b : Int) : Int := wrap16 ((a * b) / 2 ^ FP_SHIFT)

/-- The macro `((x) < (min) ? (min) : ((x) > (max) ? (max) : (x)))`. -/
def FP_CLAMP (x lo hi : Int) : Int :=
  if x < lo then lo else if x > hi then hi else x

/-! ## core/trig_tables.h -/

def TRIG_TABLE_SIZE : Nat := 32

def SIN_TABLE : List Int :=
  [0, 13, 25, 38, 50, 63, 75, 87, 100, 112, 124, 135, 147, 158, 169, 180,
   190, 200, 209, 218, 226, 234, 241, 247, 252, 254, 255, 256, 256, 256, 256,
   256, 256]

def COS_TABLE : List Int :=
  [256, 256, 256, 256, 254, 252, 247, 241, 234, 226, 218, 209, 200, 190, 180,
   169, 158, 147, 135, 124, 112, 100, 87, 75, 63, 50, 38, 25, 13, 0, 0, 0, 0]

/-- The function `fp_sin`.  `degrees` is a `uint16_t`; `index` is a `uint8_t`.
The table read `SIN_TABLE[index]` is `List.getD` (the index is at most 32 in
every branch, so the default value is never returned). -/
def fp_sin (degrees : Nat) : Int :=
  let degrees := degrees % 360
  if degrees ≤ 90 then
    let index := (degrees * TRIG_TABLE_SIZE) / 90 % 256
    SIN_TABLE.getD index 0
  else if degrees ≤ 180 then
    let index := ((180 - degrees) * TRIG_TABLE_SIZE) / 90 % 256
    SIN_TABLE.getD index 0
  else if degrees ≤ 270 then
    let index := ((degrees - 180) * TRIG_TABLE_SIZE) / 90 % 256
    wrap16 (-(SIN_TABLE.getD index 0))
  else
    let index := ((360 - degrees) * TRIG_TABLE_SIZE) / 90 % 256
    wrap16 (-(SIN_TABLE.getD index 0))

/-- The function `fp_cos`: `fp_sin((degrees + 90) % 360)`, the sum being a
16-bit unsigned value. -/
def fp_cos (degrees : Nat) : Int :=
  fp_sin ((degrees + 90) % 65536 % 360)

/-- The table index computed by `fp_sin` in the branch it takes. -/
def fp_sin_index (degrees : Nat) : Nat :=
  let degrees := degrees % 360
  if degrees ≤ 90 then
    (degrees * TRIG_TABLE_SIZE) / 90 % 256
  else if degrees ≤ 180 then
    ((180 - degrees) * TRIG_TABLE_SIZE) / 90 % 256
  else if degrees ≤ 270 then
    ((degrees - 180) * TRIG_TABLE_SIZE) / 90 % 256
  else
    ((360 - degrees) * TRIG_TABLE_SIZE) / 90 % 256

/-! ## states/pingpong.c -/

/-- The engine settings `pingpong_ball_speed`, `pingpong_max_angle` and
`pingpong_paddle_width` (each an `extern UBYTE`). -/
structure pingpong_settings where
  pingpong_ball_speed : Nat
  pingpong_max_angle : Nat
  pingpong_paddle_width : Nat
  deriving DecidableEq, Repr

/-- The ball state. -/
structure pingpong_ball_t where
  x : Int
  y : Int
  vel_x : Int
  vel_y : Int
  angle : Nat
  active : Nat
  deriving DecidableEq, Repr

/-- The function `pingpong_init`: every field of the ball is assigned, so the
previous state is not an argument. -/
def pingpong_init (cfg : pingpong_settings) (x y angle_degrees : Nat) :
    pingpong_ball_t :=
  let angle := angle_degrees % 360
  let speed := INT_TO_FP cfg.pingpong_ball_speed
  let vel_x := FP_MUL speed (fp_cos angle)
  let vel_y := FP_MUL speed (fp_sin angle)
  { x := INT_TO_FP x
    y := INT_TO_FP y
    vel_x := vel_x
    vel_y := wrap16 (-vel_y)
    angle := angle
    active := 1 }

/-- The function `pingpong_update`: the new ball state and the values written
to `*out_x` and `*out_y`. -/
def pingpong_update (ball : pingpong_ball_t) : pingpong_ball_t × Nat × Nat :=
  if ball.active = 0 then
    (ball, 0, 0)
  else
    let x := wrap16 (ball.x + ball.vel_x)
    let y := wrap16 (ball.y + ball.vel_y)
    ({ ball with x := x, y := y },
      toUBYTE (FP_TO_INT_ROUND x), toUBYTE (FP_TO_INT_ROUND y))

/-- The function `pingpong_reflect_horizontal`. -/
def pingpong_reflect_horizontal (ball : pingpong_ball_t) : pingpong_ball_t :=
  { ball with vel_y := wrap16 (-ball.vel_y) }

/-- The function `pingpong_reflect_vertical`. -/
def pingpong_reflect_vertical (ball : pingpong_ball_t) : pingpong_ball_t :=
  { ball with vel_x := wrap16 (-ball.vel_x) }

/-- The function `pingpong_paddle_reflect`: the new ball state and the returned
`UBYTE`, or `none` when the division by `half_width` has a zero divisor.  The
comparisons of the two gates are made on 16-bit `int` values, which hold every
sum and difference of two `UBYTE` values. -/
def pingpong_paddle_reflect (cfg : pingpong_settings) (ball : pingpong_ball_t)
    (paddle_x paddle_y : Nat) : Option (pingpong_ball_t × Nat) :=
  let ball_x : Nat := toUBYTE (FP_TO_INT_ROUND ball.x)
  let ball_y : Nat := toUBYTE (FP_TO_INT_ROUND ball.y)
  if (ball_y : Int) < (paddle_y : Int) - 2 ∨ (ball_y : Int) > (paddle_y : Int) + 4 then
    some (ball, 0)
  else
    let half_width : Nat := (cfg.pingpong_paddle_width / 2) % 256
    if (ball_x : Int) < (paddle_x : Int) - (half_width : Int)
        ∨ (ball_x : Int) > (paddle_x : Int) + (half_width : Int) then
      some (ball, 0)
    else do
      let q ← c_div (wrap16 (wrap16 ((ball_x : Int) - (paddle_x : Int)) * 2 ^ 7))
        (half_width : Int)
      let offset : Int := wrap16 q
      let angle_offset : Int :=
        wrap16 (wrap16 (offset * wrap16 (cfg.pingpong_max_angle : Int)) / 2 ^ 7)
      let new_angle : Int := wrap16 (90 + angle_offset)
      let new_angle : Int := if new_angle < 30 then 30 else new_angle
      let new_angle : Int := if new_angle > 150 then 150 else new_angle
      let angle : Nat := toU16 new_angle
      let speed := INT_TO_FP cfg.pingpong_ball_speed
      let vel_x := FP_MUL speed (fp_cos angle)
      let vel_y := wrap16 (-(FP_MUL speed (fp_sin angle)))
      pure ({ ball with angle := angle, vel_x := vel_x, vel_y := vel_y }, 1)

/-- The function `pingpong_set_active`. -/
def pingpong_set_active (ball : pingpong_ball_t) (active : Nat) : pingpong_ball_t :=
  { ball with active := active }

/-- The function `pingpong_is_active`. -/
def pingpong_is_active (ball : pingpong_ball_t) : Nat := ball.active

/-- The function `pingpong_init_scene`: `memset(&ball, 0, sizeof(ball))`. -/
def pingpong_init_scene (_ball : pingpong_ball_t) : pingpong_ball_t :=
  { x := 0, y := 0, vel_x := 0, vel_y := 0, angle := 0, active := 0 }

/-! ## Auxiliary definitions -/

/-- Lines 126 to 135 of `pingpong_paddle_reflect`, as a function of the hit
offset: the angle stored in the ball. -/
def launch_angle (offset : Int) (max_angle : Nat) : Nat :=
  let angle_offset : Int := wrap16 (wrap16 (offset * wrap16 (max_angle : Int)) / 2 ^ 7)
  let new_angle : Int := wrap16 (90 + angle_offset)
  let new_angle : Int := if new_angle < 30 then 30 else new_angle
  let new_angle : Int := if new_angle > 150 then 150 else new_angle
  toU16 new_angle

/-- The ball left by a collision that stores the angle `angle` (lines 135 to
140 of `pingpong_paddle_reflect`). -/
def launch (cfg : pingpong_settings) (ball : pingpong_ball_t) (angle : Nat) :
    pingpong_ball_t :=
  { ball with
    angle := angle
    vel_x := FP_MUL (INT_TO_FP cfg.pingpong_ball_speed) (fp_cos angle)
    vel_y := wrap16 (-(FP_MUL (INT_TO_FP cfg.pingpong_ball_speed) (fp_sin angle))) }

/-- The direction invariant of the ball: the stored velocity is the one
computed from the stored angle and the configured speed,
`vel_x == FP_MUL(INT_TO_FP(ball_speed), fp_cos(angle))` and
`vel_y == -FP_MUL(INT_TO_FP(ball_speed), fp_sin(angle))`, the negation being a
16-bit `int` negation as in `pingpong_paddle_reflect`. -/
def direction_invariant (cfg : pingpong_settings) (ball : pingpong_ball_t) : Prop :=
  ball.vel_x = FP_MUL (INT_TO_FP cfg.pingpong_ball_speed) (fp_cos ball.angle)
  ∧ ball.vel_y = wrap16 (-(FP_MUL (INT_TO_FP cfg.pingpong_ball_speed) (fp_sin ball.angle)))

/-! ## Paddle collision gates -/

/-- C1: with `paddle_width = 0` the division by `half_width` is not guarded.
A ball whose pixel is `(80, 100)`, on a paddle at `(80, 100)`, passes both
gates (the horizontal gate is `80 < 80 - 0 || 80 > 80 + 0`) and the code
evaluates `(0 << 7) / 0`: the call has no defined result, it does not return
0. -/
theorem paddle_reflect_zero_width_divides_by_zero :
    pingpong_paddle_reflect
      { pingpong_ball_speed := 2, pingpong_max_angle := 60, pingpong_paddle_width := 0 }
      { x := 20480, y := 25600, vel_x := 0, vel_y := 512, angle := 270, active := 1 }
      80 100 = none := by
  decide

/-- C2: when the rounded pixel Y of the ball is below `paddle_y - 2` or above
`paddle_y + 4`, or its rounded pixel X is farther than
`half_width = paddle_width / 2` from `paddle_x`, the paddle test returns 0 and
the ball state is the one before the call. -/
theorem paddle_reflect_miss_no_mutation (cfg : pingpong_settings)
    (ball : pingpong_ball_t) (paddle_x paddle_y : Nat)
    (hw : cfg.pingpong_paddle_width < 256)
    (h : (toUBYTE (FP_TO_INT_ROUND ball.y) : Int) < (paddle_y : Int) - 2
      ∨ (toUBYTE (FP_TO_INT_ROUND ball.y) : Int) > (paddle_y : Int) + 4
      ∨ ((cfg.pingpong_paddle_width / 2 : Nat) : Int)
          < |(toUBYTE (FP_TO_INT_ROUND ball.x) : Int) - (paddle_x : Int)|) :
    pingpong_paddle_reflect cfg ball paddle_x paddle_y = some (ball, 0) := by
  have hhalf : cfg.pingpong_paddle_width / 2 % 256 = cfg.pingpong_paddle_width / 2 := by
    omega
  unfold pingpong_paddle_reflect
  simp only [hhalf]
  split_ifs with h1 h2
  · rfl
  · rfl
  · exfalso
    rcases h with h | h | h
    · exact h1 (Or.inl h)
    · exact h1 (Or.inr h)
    · rw [lt_abs] at h
      omega

/-! ## Arithmetic of the paddle hit -/

/-- Past the two gates, the paddle test is the division followed by the
launch. -/
theorem paddle_reflect_pass (cfg : pingpong_settings) (ball : pingpong_ball_t)
    (paddle_x paddle_y : Nat)
    (hy : ¬ ((toUBYTE (FP_TO_INT_ROUND ball.y) : Int) < (paddle_y : Int) - 2
      ∨ (toUBYTE (FP_TO_INT_ROUND ball.y) : Int) > (paddle_y : Int) + 4))
    (hx : ¬ ((toUBYTE (FP_TO_INT_ROUND ball.x) : Int)
          < (paddle_x : Int) - ((cfg.pingpong_paddle_width / 2 % 256 : Nat) : Int)
      ∨ (toUBYTE (FP_TO_INT_ROUND ball.x) : Int)
          > (paddle_x : Int) + ((cfg.pingpong_paddle_width / 2 % 256 : Nat) : Int))) :
    pingpong_paddle_reflect cfg ball paddle_x paddle_y
      = (c_div (wrap16 (wrap16 ((toUBYTE (FP_TO_INT_ROUND ball.x) : Int) - (paddle_x : Int))
            * 2 ^ 7)) ((cfg.pingpong_paddle_width / 2 % 256 : Nat) : Int)).map
          (fun q => (launch cfg ball (launch_angle (wrap16 q) cfg.pingpong_max_angle), 1)) := by
  unfold pingpong_paddle_reflect
  simp only [if_neg hy, if_neg hx]
  cases c_div (wrap16 (wrap16 ((toUBYTE (FP_TO_INT_ROUND ball.x) : Int) - (paddle_x : Int))
            * 2 ^ 7)) ((cfg.pingpong_paddle_width / 2 % 256 : Nat) : Int) <;> rfl

theorem fp_cos_90 : fp_cos 90 = 0 := by decide

theorem fp_sin_90 : fp_sin 90 = 256 := by decide

theorem fp_cos_0 : fp_cos 0 = 256 := by decide

theorem fp_sin_0 : fp_sin 0 = 0 := by decide

theorem launch_angle_zero (m : Nat) : launch_angle 0 m = 90 := by
  simp [launch_angle, wrap16, toU16]

theorem FP_MUL_zero (a : Int) : FP_MUL a 0 = 0 := by
  simp [FP_MUL, wrap16]

/-- C4: with `paddle_width >= 2`, a ball whose rounded pixel Y is inside the
band `[paddle_y - 2, paddle_y + 4]` and whose rounded pixel X is `paddle_x`
makes the paddle test return 1 with angle 90 and `vel_x = 0`; position and
active flag are kept. -/
theorem paddle_reflect_centre (cfg : pingpong_settings) (ball : pingpong_ball_t)
    (paddle_x paddle_y : Nat)
    (hw2 : 2 ≤ cfg.pingpong_paddle_width) (hw : cfg.pingpong_paddle_width < 256)
    (hlo : (paddle_y : Int) - 2 ≤ (toUBYTE (FP_TO_INT_ROUND ball.y) : Int))
    (hhi : (toUBYTE (FP_TO_INT_ROUND ball.y) : Int) ≤ (paddle_y : Int) + 4)
    (hx : toUBYTE (FP_TO_INT_ROUND ball.x) = paddle_x) :
    pingpong_paddle_reflect cfg ball paddle_x paddle_y
      = some ({ ball with
                  angle := 90
                  vel_x := 0
                  vel_y := wrap16 (-(FP_MUL (INT_TO_FP cfg.pingpong_ball_speed) 256)) }, 1) := by
  have hhalf : (cfg.pingpong_paddle_width / 2 % 256 : Nat) ≠ 0 := by omega
  have hhalfI : ((cfg.pingpong_paddle_width / 2 % 256 : Nat) : Int) ≠ 0 := by
    exact_mod_cast hhalf
  rw [paddle_reflect_pass cfg ball paddle_x paddle_y (by omega) (by omega)]
  have hq : c_div (wrap16 (wrap16 ((toUBYTE (FP_TO_INT_ROUND ball.x) : Int) - (paddle_x : Int))
      * 2 ^ 7)) ((cfg.pingpong_paddle_width / 2 % 256 : Nat) : Int) = some 0 := by
    unfold c_div
    rw [if_neg hhalfI, hx]
    simp [wrap16]
  rw [hq]
  simp [launch, launch_angle_zero, fp_cos_90, fp_sin_90, FP_MUL_zero, wrap16]

theorem launch_angle_left (m : Nat) (hm : m < 256) :
    (launch_angle (-128) m : Int) = FP_CLAMP (90 - (m : Int)) 30 150 := by
  simp only [launch_angle, wrap16, toU16, FP_CLAMP]
  norm_num
  split_ifs <;> omega

theorem launch_angle_right (m : Nat) (hm : m < 256) :
    (launch_angle 128 m : Int) = FP_CLAMP (90 + (m : Int)) 30 150 := by
  simp only [launch_angle, wrap16, toU16, FP_CLAMP]
  norm_num
  split_ifs <;> omega

theorem launch_angle_range (offset : Int) (m : Nat) :
    30 ≤ launch_angle offset m ∧ launch_angle offset m ≤ 150 := by
  simp only [launch_angle, toU16]
  split_ifs <;> omega

theorem c_div_left_edge (h : Int) (h1 : 1 ≤ h) (h2 : h ≤ 127) :
    c_div (wrap16 (wrap16 (-h) * 2 ^ 7)) h = some (-128) := by
  have e : wrap16 (wrap16 (-h) * 2 ^ 7) = h * (-128) := by
    simp only [wrap16]
    omega
  unfold c_div
  rw [if_neg (by omega), e, Int.mul_tdiv_cancel_left _ (by omega)]

theorem c_div_right_edge (h : Int) (h1 : 1 ≤ h) (h2 : h ≤ 127) :
    c_div (wrap16 (wrap16 h * 2 ^ 7)) h = some 128 := by
  have e : wrap16 (wrap16 h * 2 ^ 7) = h * 128 := by
    simp only [wrap16]
    omega
  unfold c_div
  rw [if_neg (by omega), e, Int.mul_tdiv_cancel_left _ (by omega)]

/-- C5: with `paddle_width >= 2` and the ball's pixel Y inside the collision
band, a ball whose pixel X is `paddle_x - half_width` gets the angle
`clamp(90 - max_angle, 30, 150)` and a ball whose pixel X is
`paddle_x + half_width` gets `clamp(90 + max_angle, 30, 150)`; the call
returns 1 in both cases. -/
theorem paddle_reflect_edge_angle (cfg : pingpong_settings) (ball : pingpong_ball_t)
    (paddle_x paddle_y : Nat)
    (hw2 : 2 ≤ cfg.pingpong_paddle_width) (hw : cfg.pingpong_paddle_width < 256)
    (hm : cfg.pingpong_max_angle < 256)
    (hlo : (paddle_y : Int) - 2 ≤ (toUBYTE (FP_TO_INT_ROUND ball.y) : Int))
    (hhi : (toUBYTE (FP_TO_INT_ROUND ball.y) : Int) ≤ (paddle_y : Int) + 4) :
    ((toUBYTE (FP_TO_INT_ROUND ball.x) : Int)
        = (paddle_x : Int) - ((cfg.pingpong_paddle_width / 2 : Nat) : Int) →
      ∃ b, pingpong_paddle_reflect cfg ball paddle_x paddle_y = some (b, 1)
        ∧ (b.angle : Int) = FP_CLAMP (90 - (cfg.pingpong_max_angle : Int)) 30 150)
    ∧ ((toUBYTE (FP_TO_INT_ROUND ball.x) : Int)
        = (paddle_x : Int) + ((cfg.pingpong_paddle_width / 2 : Nat) : Int) →
      ∃ b, pingpong_paddle_reflect cfg ball paddle_x paddle_y = some (b, 1)
        ∧ (b.angle : Int) = FP_CLAMP (90 + (cfg.pingpong_max_angle : Int)) 30 150) := by
  have hhalf : cfg.pingpong_paddle_width / 2 % 256 = cfg.pingpong_paddle_width / 2 := by
    omega
  have h1 : (1 : Int) ≤ ((cfg.pingpong_paddle_width / 2 : Nat) : Int) := by omega
  have h2 : ((cfg.pingpong_paddle_width / 2 : Nat) : Int) ≤ 127 := by omega
  constructor
  · intro hx
    rw [paddle_reflect_pass cfg ball paddle_x paddle_y (by omega) (by omega), hhalf]
    have e : (toUBYTE (FP_TO_INT_ROUND ball.x) : Int) - (paddle_x : Int)
        = -((cfg.pingpong_paddle_width / 2 : Nat) : Int) := by omega
    rw [e, c_div_left_edge _ h1 h2]
    refine ⟨_, rfl, ?_⟩
    have w : wrap16 (-128) = -128 := by decide
    simp only [launch, w]
    exact launch_angle_left _ hm
  · intro hx
    rw [paddle_reflect_pass cfg ball paddle_x paddle_y (by omega) (by omega), hhalf]
    have e : (toUBYTE (FP_TO_INT_ROUND ball.x) : Int) - (paddle_x : Int)
        = ((cfg.pingpong_paddle_width / 2 : Nat) : Int) := by omega
    rw [e, c_div_right_edge _ h1 h2]
    refine ⟨_, rfl, ?_⟩
    have w : wrap16 128 = 128 := by decide
    simp only [launch, w]
    exact launch_angle_right _ hm

theorem fp_sin_launch_range (a : Nat) (h1 : 30 ≤ a) (h2 : a ≤ 150) :
    124 ≤ fp_sin a ∧ fp_sin a ≤ 256 := by
  interval_cases a <;> decide

theorem INT_TO_FP_speed (s : Nat) (hs : s ≤ 127) : INT_TO_FP (s : Int) = (s : Int) * 256 := by
  simp only [INT_TO_FP, wrap16, FP_SHIFT]
  omega

theorem FP_MUL_speed (s : Nat) (v : Int) (hs : s ≤ 127) (hv1 : 0 ≤ v) (hv2 : v ≤ 256) :
    FP_MUL (INT_TO_FP (s : Int)) v = (s : Int) * v := by
  have e : (s : Int) * 256 * v = (s : Int) * v * 256 := by ring
  have hb1 : 0 ≤ (s : Int) * v := by positivity
  have hb2 : (s : Int) * v ≤ 32512 := by nlinarith
  rw [INT_TO_FP_speed s hs]
  have p : ((2 : Int) ^ 8) = 256 := by norm_num
  simp only [FP_MUL, FP_SHIFT]
  rw [p, e, Int.mul_ediv_cancel _ (by norm_num)]
  simp only [wrap16]
  omega

theorem launch_vel_y_neg (s : Nat) (v : Int) (hs1 : 1 ≤ s) (hs : s ≤ 127)
    (hv1 : 124 ≤ v) (hv2 : v ≤ 256) :
    wrap16 (-(FP_MUL (INT_TO_FP (s : Int)) v)) < 0 := by
  have hb1 : 124 ≤ (s : Int) * v := by nlinarith
  have hb2 : (s : Int) * v ≤ 32512 := by nlinarith
  rw [FP_MUL_speed s v hs (by omega) hv2]
  simp only [wrap16]
  omega

/-- C6: whenever the paddle test returns 1, the stored angle lies in
`[30, 150]` and, for a configured `ball_speed` in 1..127, the new `vel_y` is
strictly negative (upward). -/
theorem paddle_reflect_launch_upward (cfg : pingpong_settings) (ball b : pingpong_ball_t)
    (paddle_x paddle_y : Nat)
    (h : pingpong_paddle_reflect cfg ball paddle_x paddle_y = some (b, 1)) :
    30 ≤ b.angle ∧ b.angle ≤ 150
      ∧ (1 ≤ cfg.pingpong_ball_speed → cfg.pingpong_ball_speed ≤ 127 → b.vel_y < 0) := by
  by_cases hy : ((toUBYTE (FP_TO_INT_ROUND ball.y) : Int) < (paddle_y : Int) - 2
      ∨ (toUBYTE (FP_TO_INT_ROUND ball.y) : Int) > (paddle_y : Int) + 4)
  · unfold pingpong_paddle_reflect at h
    simp only [if_pos hy] at h
    simp at h
  by_cases hx : ((toUBYTE (FP_TO_INT_ROUND ball.x) : Int)
          < (paddle_x : Int) - ((cfg.pingpong_paddle_width / 2 % 256 : Nat) : Int)
      ∨ (toUBYTE (FP_TO_INT_ROUND ball.x) : Int)
          > (paddle_x : Int) + ((cfg.pingpong_paddle_width / 2 % 256 : Nat) : Int))
  · unfold pingpong_paddle_reflect at h
    simp only [if_neg hy, if_pos hx] at h
    simp at h
  rw [paddle_reflect_pass cfg ball paddle_x paddle_y hy hx] at h
  cases hq : c_div (wrap16 (wrap16 ((toUBYTE (FP_TO_INT_ROUND ball.x) : Int) - (paddle_x : Int))
            * 2 ^ 7)) ((cfg.pingpong_paddle_width / 2 % 256 : Nat) : Int) with
  | none =>
    rw [hq] at h
    simp at h
  | some q =>
    rw [hq] at h
    simp only [Option.map_some', Option.some.injEq, Prod.mk.injEq, and_true] at h
    subst h
    have hr := launch_angle_range (wrap16 q) cfg.pingpong_max_angle
    refine ⟨hr.1, hr.2, ?_⟩
    intro hs1 hs2
    have hv := fp_sin_launch_range _ hr.1 hr.2
    exact launch_vel_y_neg _ _ hs1 hs2 hv.1 hv.2

/-- C3: under the angle convention of the code (0 = right, 180 = left) the
edges are mirrored.  With `paddle_width = 16`, `max_angle = 60` and
`ball_speed = 2`, a ball at pixel `(72, 100)`, the left edge of a paddle at
`(80, 100)`, leaves with angle 30 and `vel_x = 468 > 0` (rightward); a ball at
pixel `(88, 100)`, the right edge, leaves with angle 150 and
`vel_x = -468 < 0` (leftward). -/
theorem paddle_reflect_edges_mirrored :
    pingpong_paddle_reflect
        { pingpong_ball_speed := 2, pingpong_max_angle := 60, pingpong_paddle_width := 16 }
        { x := 18432, y := 25600, vel_x := 0, vel_y := 512, angle := 270, active := 1 }
        80 100
      = some ({ x := 18432, y := 25600, vel_x := 468, vel_y := -248, angle := 30,
                active := 1 }, 1)
    ∧ pingpong_paddle_reflect
        { pingpong_ball_speed := 2, pingpong_max_angle := 60, pingpong_paddle_width := 16 }
        { x := 22528, y := 25600, vel_x := 0, vel_y := 512, angle := 270, active := 1 }
        80 100
      = some ({ x := 22528, y := 25600, vel_x := -468, vel_y := -248, angle := 150,
                active := 1 }, 1) := by
  decide

/-! ## Initialisation and integration -/

/-- C7, as stated, fails: with `ball_speed = 200` the speed `200 << 8` does
not fit `fixed_t` and wraps to `-14336`, so `pingpong_init(80, 100, 90)` gives
`vel_y = 14336 > 0` and `pingpong_init(80, 100, 0)` gives
`vel_x = -14336 < 0`. -/
theorem init_velocity_speed_200 :
    (pingpong_init
        { pingpong_ball_speed := 200, pingpong_max_angle := 60, pingpong_paddle_width := 16 }
        80 100 90).vel_y = 14336
    ∧ (pingpong_init
        { pingpong_ball_speed := 200, pingpong_max_angle := 60, pingpong_paddle_width := 16 }
        80 100 0).vel_x = -14336
    ∧ ¬ ((pingpong_init
        { pingpong_ball_speed := 200, pingpong_max_angle := 60, pingpong_paddle_width := 16 }
        80 100 90).vel_y < 0)
    ∧ ¬ ((pingpong_init
        { pingpong_ball_speed := 200, pingpong_max_angle := 60, pingpong_paddle_width := 16 }
        80 100 0).vel_x > 0) := by
  decide

/-- C7, amended: for every start position and every configured `ball_speed`
in 1..127, `pingpong_init(x, y, 90)` gives `vel_x = 0` and `vel_y < 0`, and
`pingpong_init(x, y, 0)` gives `vel_x > 0` and `vel_y = 0`. -/
theorem init_velocity_cardinal (cfg : pingpong_settings) (x y : Nat)
    (hs1 : 1 ≤ cfg.pingpong_ball_speed) (hs : cfg.pingpong_ball_speed ≤ 127) :
    (pingpong_init cfg x y 90).vel_x = 0
    ∧ (pingpong_init cfg x y 90).vel_y < 0
    ∧ (pingpong_init cfg x y 0).vel_x > 0
    ∧ (pingpong_init cfg x y 0).vel_y = 0 := by
  have e90 : 90 % 360 = 90 := by norm_num
  have e0 : 0 % 360 = 0 := by norm_num
  have hm := FP_MUL_speed cfg.pingpong_ball_speed 256 hs (by norm_num) (by norm_num)
  have hs1I : (1 : Int) ≤ (cfg.pingpong_ball_speed : Int) := by exact_mod_cast hs1
  have hsI : (cfg.pingpong_ball_speed : Int) ≤ 127 := by exact_mod_cast hs
  refine ⟨?_, ?_, ?_, ?_⟩
  · simp only [pingpong_init, e90, fp_cos_90, FP_MUL_zero]
  · simp only [pingpong_init, e90, fp_sin_90, hm, wrap16]
    omega
  · simp only [pingpong_init, e0, fp_cos_0, hm]
    omega
  · simp only [pingpong_init, e0, fp_sin_0, FP_MUL_zero]
    decide

/-- C8: for every start pixel `(x, y)` with `x` in 0..255 (and every `y`, in
particular those in 0..255) and every `ball_speed` `s` in 0..127,
`pingpong_init(x, y, 90)` followed by one `pingpong_update` writes
`out_x = x` and `out_y = (y - s) mod 256`, and the ball is still active.  The
move is stored in the ball: after the update its position is the fixed-point
value of the pixel `(x, y - s)`, its velocity is `(0, -256 * s)` and its angle
is 90, so a second update writes `out_x = x` and
`out_y = (y - 2 * s) mod 256`. -/
theorem init_update_moves_up (cfg : pingpong_settings) (x y : Nat)
    (hx : x < 256) (hs : cfg.pingpong_ball_speed ≤ 127) :
    (pingpong_update (pingpong_init cfg x y 90)).2.1 = x
    ∧ ((pingpong_update (pingpong_init cfg x y 90)).2.2 : Int)
        = ((y : Int) - (cfg.pingpong_ball_speed : Int)) % 256
    ∧ pingpong_is_active (pingpong_update (pingpong_init cfg x y 90)).1 = 1
    ∧ (pingpong_update (pingpong_init cfg x y 90)).1
        = { x := INT_TO_FP x
            y := INT_TO_FP ((y : Int) - (cfg.pingpong_ball_speed : Int))
            vel_x := 0
            vel_y := -(256 * (cfg.pingpong_ball_speed : Int))
            angle := 90
            active := 1 }
    ∧ (pingpong_update (pingpong_update (pingpong_init cfg x y 90)).1).2.1 = x
    ∧ ((pingpong_update (pingpong_update (pingpong_init cfg x y 90)).1).2.2 : Int)
        = ((y : Int) - 2 * (cfg.pingpong_ball_speed : Int)) % 256 := by
  have e90 : 90 % 360 = 90 := by norm_num
  have hm := FP_MUL_speed cfg.pingpong_ball_speed 256 hs (by norm_num) (by norm_num)
  have hsI : (cfg.pingpong_ball_speed : Int) ≤ 127 := by exact_mod_cast hs
  have one : ¬ ((1 : Nat) = 0) := by decide
  have hstate : (pingpong_update (pingpong_init cfg x y 90)).1
      = { x := INT_TO_FP x
          y := INT_TO_FP ((y : Int) - (cfg.pingpong_ball_speed : Int))
          vel_x := 0
          vel_y := -(256 * (cfg.pingpong_ball_speed : Int))
          angle := 90
          active := 1 } := by
    simp only [pingpong_update, pingpong_init, e90, fp_cos_90, fp_sin_90, FP_MUL_zero, hm,
      if_neg one, pingpong_ball_t.mk.injEq, and_true, true_and]
    refine ⟨?_, ?_, ?_⟩
    · simp only [INT_TO_FP, FP_SHIFT, wrap16]
      omega
    · simp only [INT_TO_FP, FP_SHIFT, wrap16]
      omega
    · simp only [wrap16]
      omega
  refine ⟨?_, ?_, ?_, hstate, ?_, ?_⟩
  · simp only [pingpong_update, pingpong_init, e90, fp_cos_90, fp_sin_90, FP_MUL_zero, hm,
      if_neg one]
    simp only [toUBYTE, FP_TO_INT_ROUND, INT_TO_FP, FP_HALF, FP_ONE, FP_SHIFT, wrap16, wrap8]
    omega
  · simp only [pingpong_update, pingpong_init, e90, fp_cos_90, fp_sin_90, FP_MUL_zero, hm,
      if_neg one]
    simp only [toUBYTE, FP_TO_INT_ROUND, INT_TO_FP, FP_HALF, FP_ONE, FP_SHIFT, wrap16, wrap8]
    omega
  · rw [hstate]
    rfl
  · rw [hstate]
    simp only [pingpong_update, if_neg one]
    simp only [toUBYTE, FP_TO_INT_ROUND, INT_TO_FP, FP_HALF, FP_ONE, FP_SHIFT, wrap16, wrap8]
    omega
  · rw [hstate]
    simp only [pingpong_update, if_neg one]
    simp only [toUBYTE, FP_TO_INT_ROUND, INT_TO_FP, FP_HALF, FP_ONE, FP_SHIFT, wrap16, wrap8]
    omega

/-- C9: for a ball with `active == 0`, and in particular right after
`pingpong_set_active(0)`, `pingpong_update` writes `(0, 0)` and leaves every
field of the ball unchanged. -/
theorem update_inactive (ball : pingpong_ball_t) :
    (ball.active = 0 → pingpong_update ball = (ball, 0, 0))
    ∧ pingpong_update (pingpong_set_active ball 0) = (pingpong_set_active ball 0, 0, 0) := by
  constructor
  · intro h
    simp [pingpong_update, h]
  · simp [pingpong_update, pingpong_set_active]

/-- C10: from every ball state `pingpong_init_scene` sets all six fields to
zero, so `pingpong_is_active` returns 0 and the next `pingpong_update` writes
`(0, 0)` and keeps the zeroed state. -/
theorem init_scene_resets (ball : pingpong_ball_t) :
    pingpong_init_scene ball
        = { x := 0, y := 0, vel_x := 0, vel_y := 0, angle := 0, active := 0 }
    ∧ pingpong_is_active (pingpong_init_scene ball) = 0
    ∧ pingpong_update (pingpong_init_scene ball) = (pingpong_init_scene ball, 0, 0) := by
  refine ⟨rfl, rfl, ?_⟩
  simp [pingpong_update, pingpong_init_scene]

/-! ## Wall reflections -/

/-- C11: for every ball state whose velocities are 16-bit values (the most
negative one, -32768, included), two calls of `pingpong_reflect_horizontal`
and two calls of `pingpong_reflect_vertical` each give back the whole ball
state, so the Y velocity, the X velocity, the position and the angle are what
they were. -/
theorem reflect_twice_restores (ball : pingpong_ball_t)
    (hx1 : -32768 ≤ ball.vel_x) (hx2 : ball.vel_x ≤ 32767)
    (hy1 : -32768 ≤ ball.vel_y) (hy2 : ball.vel_y ≤ 32767) :
    pingpong_reflect_horizontal (pingpong_reflect_horizontal ball) = ball
    ∧ pingpong_reflect_vertical (pingpong_reflect_vertical ball) = ball := by
  have ey : wrap16 (-wrap16 (-ball.vel_y)) = ball.vel_y := by
    simp only [wrap16]
    omega
  have ex : wrap16 (-wrap16 (-ball.vel_x)) = ball.vel_x := by
    simp only [wrap16]
    omega
  constructor
  · simp only [pingpong_reflect_horizontal, ey]
  · simp only [pingpong_reflect_vertical, ex]

/-! ## Fixed-point conversions -/

/-- C14: for every integer `n` with `-128 <= n <= 127`,
`FP_TO_INT(INT_TO_FP(n)) == n`. -/
theorem fp_int_round_trip (n : Int) (h1 : -128 ≤ n) (h2 : n ≤ 127) :
    FP_TO_INT (INT_TO_FP n) = n := by
  simp only [FP_TO_INT, INT_TO_FP, FP_SHIFT, wrap16, wrap8]
  omega

/-- C17, as stated, fails: `FP_TO_INT_ROUND(32640)` (the value 127.5) is
`(int8_t)128 = -128`, while `floor((32640 + 128) / 256)` is 128. -/
theorem fp_round_32640 :
    FP_TO_INT_ROUND 32640 = -128 ∧ ((32640 : Int) + 128) / 256 = 128
    ∧ FP_TO_INT_ROUND 32640 ≠ ((32640 : Int) + 128) / 256 := by
  decide

/-- C17, amended: for every fixed-point value `x` with `0 <= x <= 32639`
(the non-negative values below 127.5, whose rounded value fits `int8_t`),
`FP_TO_INT_ROUND(x)` equals `floor((x + 128) / 256)`. -/
theorem fp_round_half_up (x : Int) (h1 : 0 ≤ x) (h2 : x ≤ 32639) :
    FP_TO_INT_ROUND x = (x + 128) / 256 := by
  simp only [FP_TO_INT_ROUND, FP_HALF, FP_ONE, FP_SHIFT, wrap16, wrap8]
  omega

/-! ## Trigonometric lookup -/

theorem fp_sin_eq_table (d : Nat) :
    fp_sin d = if d % 360 ≤ 180 then SIN_TABLE.getD (fp_sin_index d) 0
      else wrap16 (-(SIN_TABLE.getD (fp_sin_index d) 0)) := by
  simp only [fp_sin, fp_sin_index]
  split_ifs <;> first | rfl | omega

theorem fp_sin_mod (d : Nat) : fp_sin d = fp_sin (d % 360) := by
  simp only [fp_sin, Nat.mod_mod]

theorem fp_sin_index_mod (d : Nat) : fp_sin_index d = fp_sin_index (d % 360) := by
  simp only [fp_sin_index, Nat.mod_mod]

theorem fp_sin_reduced_bounds (r : Nat) (h : r < 360) :
    fp_sin_index r ≤ 32 ∧ -256 ≤ fp_sin r ∧ fp_sin r ≤ 256 := by
  interval_cases r <;> decide

/-- C19, as stated, fails for `fp_cos`: the sum `degrees + 90` is a 16-bit
unsigned value, and at `d = 65446` it wraps to 0, so `fp_cos(65446)` is
`fp_sin(0) = 0`, while the cosine of the reduced angle `65446 % 360 = 286` is
`fp_cos(286) = 63`: the result is not that of `d` reduced modulo 360. -/
theorem fp_cos_sum_wraps :
    fp_cos 65446 = 0 ∧ 65446 % 360 = 286 ∧ fp_cos (65446 % 360) = 63
    ∧ fp_cos 65446 ≠ fp_cos (65446 % 360) := by
  decide

/-- Over a full turn the sum of the squares stays within 6664 of `65536`. -/
theorem sin_cos_squares_range (d : Nat) (h : d < 360) :
    -6664 ≤ fp_sin d ^ 2 + fp_cos d ^ 2 - 65536
    ∧ fp_sin d ^ 2 + fp_cos d ^ 2 - 65536 ≤ 6664 := by
  interval_cases d <;> decide

/-- C13: `fp_sin(0) = 0`, `fp_sin(90) = 256`, `fp_sin(180) = 0` and
`fp_sin(270) = -256`. -/
theorem fp_sin_cardinal :
    fp_sin 0 = 0 ∧ fp_sin 90 = 256 ∧ fp_sin 180 = 0 ∧ fp_sin 270 = -256 := by
  decide

/-- C12: at `d = 45` the lookup gives `fp_sin(45) = fp_cos(45) = 190`, so
`fp_sin(45)^2 + fp_cos(45)^2 = 72200`, which is 6664 above `65536`: the
deviation exceeds 3277. -/
theorem sin_cos_squares_at_45 :
    fp_sin 45 = 190 ∧ fp_cos 45 = 190
    ∧ fp_sin 45 ^ 2 + fp_cos 45 ^ 2 - 65536 = 6664
    ∧ ¬ (fp_sin 45 ^ 2 + fp_cos 45 ^ 2 - 65536 ≤ 3277) := by
  decide

theorem fp_cos_mod (d : Nat) (h : d + 90 < 65536) : fp_cos d = fp_cos (d % 360) := by
  have e1 : (d + 90) % 65536 % 360 = (d + 90) % 360 := by omega
  have e2 : (d % 360 + 90) % 65536 % 360 = (d + 90) % 360 := by omega
  simp only [fp_cos, e1, e2]

/-- C19, amended: for every input `d` (every 16-bit unsigned value in
particular), `fp_sin` reduces `d`
modulo 360 before use (`fp_sin(d) = fp_sin(d % 360)`); `fp_cos` reduces the
16-bit sum `d + 90` modulo 360, which is the reduction of `d` itself
(`fp_cos(d) = fp_cos(d % 360)`) whenever the sum does not wrap, that is for
`d <= 65445`; for every `d` the table index computed by either function is at
most 32, so inside the 33-entry `SIN_TABLE`, the value returned is the table
entry or its negation, and it lies between -256 and 256. -/
theorem trig_lookup_in_bounds (d : Nat) :
    fp_sin d = fp_sin (d % 360)
    ∧ (d ≤ 65445 → fp_cos d = fp_cos (d % 360))
    ∧ fp_sin_index d ≤ 32
    ∧ fp_sin_index d < SIN_TABLE.length
    ∧ (fp_sin d = if d % 360 ≤ 180 then SIN_TABLE.getD (fp_sin_index d) 0
        else wrap16 (-(SIN_TABLE.getD (fp_sin_index d) 0)))
    ∧ -256 ≤ fp_sin d ∧ fp_sin d ≤ 256
    ∧ fp_cos d = fp_sin ((d + 90) % 65536 % 360)
    ∧ (d + 90) % 65536 % 360 < 360
    ∧ fp_sin_index ((d + 90) % 65536 % 360) ≤ 32
    ∧ fp_sin_index ((d + 90) % 65536 % 360) < SIN_TABLE.length
    ∧ -256 ≤ fp_cos d ∧ fp_cos d ≤ 256 := by
  have hlen : SIN_TABLE.length = 33 := by decide
  have hs := fp_sin_reduced_bounds (d % 360) (Nat.mod_lt _ (by norm_num))
  have hc := fp_sin_reduced_bounds ((d + 90) % 65536 % 360) (Nat.mod_lt _ (by norm_num))
  rw [← fp_sin_mod, ← fp_sin_index_mod] at hs
  have hcos : fp_cos d = fp_sin ((d + 90) % 65536 % 360) := rfl
  have hred : d ≤ 65445 → fp_cos d = fp_cos (d % 360) := fun h => fp_cos_mod d (by omega)
  rw [hlen]
  refine ⟨fp_sin_mod d, hred, hs.1, by omega, fp_sin_eq_table d, hs.2.1, hs.2.2, hcos,
    Nat.mod_lt _ (by norm_num), hc.1, by omega, ?_, ?_⟩
  · rw [hcos]
    exact hc.2.1
  · rw [hcos]
    exact hc.2.2

/-! ## The launch angle as a function of the hit position -/

theorem tdiv_pos_divisor (a h : Int) (hh : 0 < h) :
    Int.tdiv a h = if 0 ≤ a then a / h else -((-a) / h) := by
  split_ifs with ha
  · exact Int.tdiv_eq_ediv ha (le_of_lt hh)
  · have e : a = -(-a) := by ring
    rw [e, Int.neg_tdiv, Int.tdiv_eq_ediv (by omega) (le_of_lt hh)]
    simp

theorem tdiv_mono (a b h : Int) (hh : 0 < h) (hab : a ≤ b) :
    Int.tdiv a h ≤ Int.tdiv b h := by
  rw [tdiv_pos_divisor a h hh, tdiv_pos_divisor b h hh]
  split_ifs with ha hb hb
  · exact Int.ediv_le_ediv hh hab
  · omega
  · have h1 : 0 ≤ (-a) / h := Int.ediv_nonneg (by omega) (le_of_lt hh)
    have h2 : 0 ≤ b / h := Int.ediv_nonneg hb (le_of_lt hh)
    omega
  · have h1 : (-b) / h ≤ (-a) / h := Int.ediv_le_ediv hh (by omega)
    omega

theorem tdiv_offset_bounds (d h : Int) (hh : 0 < h) (h1 : -h ≤ d) (h2 : d ≤ h) :
    -128 ≤ Int.tdiv (d * 128) h ∧ Int.tdiv (d * 128) h ≤ 128 := by
  rw [tdiv_pos_divisor _ h hh]
  split_ifs with ha
  · have l : 0 ≤ d * 128 / h := Int.ediv_nonneg ha (le_of_lt hh)
    have u : d * 128 / h ≤ 128 := Int.ediv_le_of_le_mul hh (by omega)
    omega
  · have l : 0 ≤ -(d * 128) / h := Int.ediv_nonneg (by omega) (le_of_lt hh)
    have u : -(d * 128) / h ≤ 128 := Int.ediv_le_of_le_mul hh (by omega)
    omega

theorem launch_angle_formula (q : Int) (m : Nat) (hq1 : -128 ≤ q) (hq2 : q ≤ 128)
    (hm : m < 256) :
    (launch_angle (wrap16 q) m : Int) = FP_CLAMP (90 + q * (m : Int) / 128) 30 150 := by
  have wq : wrap16 q = q := by
    simp only [wrap16]
    omega
  have wm : wrap16 (m : Int) = (m : Int) := by
    simp only [wrap16]
    omega
  have hmI : (m : Int) ≤ 255 := by omega
  have hm0 : (0 : Int) ≤ (m : Int) := by omega
  have p1 : -32640 ≤ q * (m : Int) := by nlinarith
  have p2 : q * (m : Int) ≤ 32640 := by nlinarith
  simp only [launch_angle, wq, wm, FP_CLAMP, toU16]
  generalize q * (m : Int) = p at p1 p2 ⊢
  simp only [wrap16]
  norm_num
  split_ifs <;> omega

/-- The angle stored by a collision, for settings that are `UBYTE` values:
the first division truncates, the shift is a floor division. -/
theorem paddle_reflect_hit_angle (cfg : pingpong_settings) (ball b : pingpong_ball_t)
    (paddle_x paddle_y : Nat)
    (hw2 : 2 ≤ cfg.pingpong_paddle_width) (hw : cfg.pingpong_paddle_width < 256)
    (hm : cfg.pingpong_max_angle < 256)
    (h : pingpong_paddle_reflect cfg ball paddle_x paddle_y = some (b, 1)) :
    (b.angle : Int) = FP_CLAMP (90
      + Int.tdiv (((toUBYTE (FP_TO_INT_ROUND ball.x) : Int) - (paddle_x : Int)) * 128)
          ((cfg.pingpong_paddle_width / 2 : Nat) : Int)
        * (cfg.pingpong_max_angle : Int) / 128) 30 150 := by
  have hhalf : cfg.pingpong_paddle_width / 2 % 256 = cfg.pingpong_paddle_width / 2 := by
    omega
  by_cases hy : ((toUBYTE (FP_TO_INT_ROUND ball.y) : Int) < (paddle_y : Int) - 2
      ∨ (toUBYTE (FP_TO_INT_ROUND ball.y) : Int) > (paddle_y : Int) + 4)
  · unfold pingpong_paddle_reflect at h
    simp only [if_pos hy] at h
    simp at h
  by_cases hx : ((toUBYTE (FP_TO_INT_ROUND ball.x) : Int)
          < (paddle_x : Int) - ((cfg.pingpong_paddle_width / 2 % 256 : Nat) : Int)
      ∨ (toUBYTE (FP_TO_INT_ROUND ball.x) : Int)
          > (paddle_x : Int) + ((cfg.pingpong_paddle_width / 2 % 256 : Nat) : Int))
  · unfold pingpong_paddle_reflect at h
    simp only [if_neg hy, if_pos hx] at h
    simp at h
  rw [paddle_reflect_pass cfg ball paddle_x paddle_y hy hx] at h
  rw [hhalf] at h hx
  have hpos : (0 : Int) < ((cfg.pingpong_paddle_width / 2 : Nat) : Int) := by omega
  have hle : ((cfg.pingpong_paddle_width / 2 : Nat) : Int) ≤ 127 := by omega
  have e : wrap16 (wrap16 ((toUBYTE (FP_TO_INT_ROUND ball.x) : Int) - (paddle_x : Int)) * 2 ^ 7)
      = ((toUBYTE (FP_TO_INT_ROUND ball.x) : Int) - (paddle_x : Int)) * 128 := by
    simp only [wrap16]
    omega
  have hb := tdiv_offset_bounds
    ((toUBYTE (FP_TO_INT_ROUND ball.x) : Int) - (paddle_x : Int))
    ((cfg.pingpong_paddle_width / 2 : Nat) : Int) hpos (by omega) (by omega)
  rw [e] at h
  unfold c_div at h
  rw [if_neg (by omega)] at h
  simp only [Option.map_some', Option.some.injEq, Prod.mk.injEq, and_true] at h
  subst h
  exact launch_angle_formula _ _ hb.1 hb.2 hm

theorem FP_CLAMP_mono (a b : Int) (h : a ≤ b) : FP_CLAMP a 30 150 ≤ FP_CLAMP b 30 150 := by
  simp only [FP_CLAMP]
  split_ifs <;> omega

/-- C16, as stated, fails: with `paddle_width = 16` and `max_angle = 61`, a
ball at pixel `(76, 100)` on a paddle at `(80, 100)` has `offset = -64`; the
code stores the angle 59, since `(-64 * 61) >> 7 = -31`, while the truncating
division `-3904 / 128 = -30` of the claim gives 60. -/
theorem paddle_reflect_angle_shift_floor :
    pingpong_paddle_reflect
        { pingpong_ball_speed := 2, pingpong_max_angle := 61, pingpong_paddle_width := 16 }
        { x := 19456, y := 25600, vel_x := 0, vel_y := 512, angle := 270, active := 1 }
        80 100
      = some ({ x := 19456, y := 25600, vel_x := 270, vel_y := -452, angle := 59,
                active := 1 }, 1)
    ∧ FP_CLAMP (90 + Int.tdiv (Int.tdiv ((76 - 80) * 128) 8 * 61) 128) 30 150 = 60 := by
  decide

/-- C16, amended: for every collision (the call returns 1) with
`paddle_width` in 2..255 and `max_angle` in 0..255, the stored angle equals
`clamp(90 + angleOffset, 30, 150)` where
`offset = (ballX - paddle_x) * 128 / half_width` is the truncating division of
C and `angleOffset = (offset * max_angle) >> 7` is the floor of
`offset * max_angle / 128`, `ballX` being the ball's rounded pixel X. -/
theorem paddle_reflect_angle_formula (cfg : pingpong_settings) (ball b : pingpong_ball_t)
    (paddle_x paddle_y : Nat)
    (hw2 : 2 ≤ cfg.pingpong_paddle_width) (hw : cfg.pingpong_paddle_width < 256)
    (hm : cfg.pingpong_max_angle < 256)
    (h : pingpong_paddle_reflect cfg ball paddle_x paddle_y = some (b, 1)) :
    (b.angle : Int) = FP_CLAMP (90
      + Int.tdiv (((toUBYTE (FP_TO_INT_ROUND ball.x) : Int) - (paddle_x : Int)) * 128)
          ((cfg.pingpong_paddle_width / 2 : Nat) : Int)
        * (cfg.pingpong_max_angle : Int) / 128) 30 150 :=
  paddle_reflect_hit_angle cfg ball b paddle_x paddle_y hw2 hw hm h

/-- C20: for a fixed paddle position, `paddle_width` in 2..255 and
`max_angle` in 0..255, if two ball states both collide and the rounded pixel X
of the first is at most that of the second, the angle stored for the first is
at most the angle stored for the second. -/
theorem paddle_reflect_angle_monotone (cfg : pingpong_settings)
    (ball1 ball2 b1 b2 : pingpong_ball_t) (paddle_x paddle_y : Nat)
    (hw2 : 2 ≤ cfg.pingpong_paddle_width) (hw : cfg.pingpong_paddle_width < 256)
    (hm : cfg.pingpong_max_angle < 256)
    (h1 : pingpong_paddle_reflect cfg ball1 paddle_x paddle_y = some (b1, 1))
    (h2 : pingpong_paddle_reflect cfg ball2 paddle_x paddle_y = some (b2, 1))
    (hx : toUBYTE (FP_TO_INT_ROUND ball1.x) ≤ toUBYTE (FP_TO_INT_ROUND ball2.x)) :
    b1.angle ≤ b2.angle := by
  have a1 := paddle_reflect_hit_angle cfg ball1 b1 paddle_x paddle_y hw2 hw hm h1
  have a2 := paddle_reflect_hit_angle cfg ball2 b2 paddle_x paddle_y hw2 hw hm h2
  have hpos : (0 : Int) < ((cfg.pingpong_paddle_width / 2 : Nat) : Int) := by omega
  have hxI : (toUBYTE (FP_TO_INT_ROUND ball1.x) : Int) ≤ (toUBYTE (FP_TO_INT_ROUND ball2.x) : Int) := by
    exact_mod_cast hx
  have q := tdiv_mono
    (((toUBYTE (FP_TO_INT_ROUND ball1.x) : Int) - (paddle_x : Int)) * 128)
    (((toUBYTE (FP_TO_INT_ROUND ball2.x) : Int) - (paddle_x : Int)) * 128)
    ((cfg.pingpong_paddle_width / 2 : Nat) : Int) hpos (by omega)
  have hm0 : (0 : Int) ≤ (cfg.pingpong_max_angle : Int) := by omega
  have p := Int.mul_le_mul_of_nonneg_right q hm0
  have r := Int.ediv_le_ediv (by norm_num : (0 : Int) < 128) p
  have c := FP_CLAMP_mono _ _ (Int.add_le_add_left r 90)
  rw [← a1, ← a2] at c
  exact_mod_cast c

/-! ## The direction invariant -/

theorem paddle_reflect_cases (cfg : pingpong_settings) (ball b : pingpong_ball_t)
    (paddle_x paddle_y r : Nat)
    (h : pingpong_paddle_reflect cfg ball paddle_x paddle_y = some (b, r)) :
    (b = ball ∧ r = 0) ∨ (∃ a, b = launch cfg ball a ∧ r = 1) := by
  by_cases hy : ((toUBYTE (FP_TO_INT_ROUND ball.y) : Int) < (paddle_y : Int) - 2
      ∨ (toUBYTE (FP_TO_INT_ROUND ball.y) : Int) > (paddle_y : Int) + 4)
  · unfold pingpong_paddle_reflect at h
    simp only [if_pos hy, Option.some.injEq, Prod.mk.injEq] at h
    exact Or.inl ⟨h.1.symm, h.2.symm⟩
  by_cases hx : ((toUBYTE (FP_TO_INT_ROUND ball.x) : Int)
          < (paddle_x : Int) - ((cfg.pingpong_paddle_width / 2 % 256 : Nat) : Int)
      ∨ (toUBYTE (FP_TO_INT_ROUND ball.x) : Int)
          > (paddle_x : Int) + ((cfg.pingpong_paddle_width / 2 % 256 : Nat) : Int))
  · unfold pingpong_paddle_reflect at h
    simp only [if_neg hy, if_pos hx, Option.some.injEq, Prod.mk.injEq] at h
    exact Or.inl ⟨h.1.symm, h.2.symm⟩
  rw [paddle_reflect_pass cfg ball paddle_x paddle_y hy hx] at h
  cases hq : c_div (wrap16 (wrap16 ((toUBYTE (FP_TO_INT_ROUND ball.x) : Int) - (paddle_x : Int))
            * 2 ^ 7)) ((cfg.pingpong_paddle_width / 2 % 256 : Nat) : Int) with
  | none =>
    rw [hq] at h
    simp at h
  | some q =>
    rw [hq] at h
    simp only [Option.map_some', Option.some.injEq, Prod.mk.injEq] at h
    exact Or.inr ⟨_, h.1.symm, h.2.symm⟩

theorem direction_invariant_launch (cfg : pingpong_settings) (ball : pingpong_ball_t)
    (a : Nat) : direction_invariant cfg (launch cfg ball a) :=
  ⟨rfl, rfl⟩

/-- C15, as stated, fails: with `ball_speed = 2`, the ball of
`pingpong_init(80, 100, 90)` satisfies the invariant (`vel_y = -512`), and
after `pingpong_reflect_horizontal` it has `vel_y = 512` with the angle still
90, so the invariant is broken; in the same way `pingpong_reflect_vertical`
breaks it on the ball of `pingpong_init(80, 100, 0)`. -/
theorem reflect_breaks_direction_invariant :
    direction_invariant
        { pingpong_ball_speed := 2, pingpong_max_angle := 60, pingpong_paddle_width := 16 }
        (pingpong_init
          { pingpong_ball_speed := 2, pingpong_max_angle := 60, pingpong_paddle_width := 16 }
          80 100 90)
    ∧ ¬ direction_invariant
        { pingpong_ball_speed := 2, pingpong_max_angle := 60, pingpong_paddle_width := 16 }
        (pingpong_reflect_horizontal (pingpong_init
          { pingpong_ball_speed := 2, pingpong_max_angle := 60, pingpong_paddle_width := 16 }
          80 100 90))
    ∧ ¬ direction_invariant
        { pingpong_ball_speed := 2, pingpong_max_angle := 60, pingpong_paddle_width := 16 }
        (pingpong_reflect_vertical (pingpong_init
          { pingpong_ball_speed := 2, pingpong_max_angle := 60, pingpong_paddle_width := 16 }
          80 100 0)) := by
  unfold direction_invariant
  decide

/-- C15, amended: under a fixed configuration the direction invariant holds
after `pingpong_init` and after every `pingpong_paddle_reflect` that returns 1
(the two operations that set the angle), and it is preserved by
`pingpong_paddle_reflect` whatever it returns, by `pingpong_update` and by
`pingpong_set_active`.  The wall reflections `pingpong_reflect_horizontal` and
`pingpong_reflect_vertical` negate one velocity component and leave the angle
as it is: they are not among the operations that keep the angle in sync. -/
theorem direction_invariant_preserved (cfg : pingpong_settings) :
    (∀ x y a : Nat, direction_invariant cfg (pingpong_init cfg x y a))
    ∧ (∀ (ball b : pingpong_ball_t) (paddle_x paddle_y : Nat),
        pingpong_paddle_reflect cfg ball paddle_x paddle_y = some (b, 1) →
        direction_invariant cfg b)
    ∧ (∀ (ball b : pingpong_ball_t) (paddle_x paddle_y r : Nat),
        direction_invariant cfg ball →
        pingpong_paddle_reflect cfg ball paddle_x paddle_y = some (b, r) →
        direction_invariant cfg b)
    ∧ (∀ ball : pingpong_ball_t, direction_invariant cfg ball →
        direction_invariant cfg (pingpong_update ball).1)
    ∧ (∀ (ball : pingpong_ball_t) (active : Nat), direction_invariant cfg ball →
        direction_invariant cfg (pingpong_set_active ball active)) := by
  refine ⟨?_, ?_, ?_, ?_, ?_⟩
  · intro x y a
    exact ⟨rfl, rfl⟩
  · intro ball b paddle_x paddle_y h
    rcases paddle_reflect_cases cfg ball b paddle_x paddle_y 1 h with ⟨_, h0⟩ | ⟨a, hb, _⟩
    · exact absurd h0 (by decide)
    · rw [hb]
      exact direction_invariant_launch cfg ball a
  · intro ball b paddle_x paddle_y r hinv h
    rcases paddle_reflect_cases cfg ball b paddle_x paddle_y r h with ⟨hb, _⟩ | ⟨a, hb, _⟩
    · rw [hb]
      exact hinv
    · rw [hb]
      exact direction_invariant_launch cfg ball a
  · intro ball hinv
    unfold pingpong_update
    split_ifs
    · exact hinv
    · exact hinv
  · intro ball active hinv
    exact hinv

/-! ## The sample tables -/

theorem sqrt_two_bounds : (1.41 : ℝ) < Real.sqrt 2 ∧ Real.sqrt 2 < 1.42 := by
  constructor
  · rw [Real.lt_sqrt (by norm_num)]
    norm_num
  · rw [Real.sqrt_lt' (by norm_num)]
    norm_num

/-- C18: at `i = 16`, the 45-degree sample, `SIN_TABLE[16] = 190` and
`COS_TABLE[16] = 158`, while `256 * sin(45 degrees) = 256 * cos(45 degrees)`
is about 181.02: neither entry is within one half of the sample, so neither
is the nearest integer. -/
theorem tables_45_degree_sample :
    SIN_TABLE.getD 16 0 = 190 ∧ COS_TABLE.getD 16 0 = 158
    ∧ ¬ (|((SIN_TABLE.getD 16 0 : Int) : ℝ)
          - 256 * Real.sin (16 * 90 / 32 * (Real.pi / 180))| ≤ 1 / 2)
    ∧ ¬ (|((COS_TABLE.getD 16 0 : Int) : ℝ)
          - 256 * Real.cos (16 * 90 / 32 * (Real.pi / 180))| ≤ 1 / 2) := by
  have hs : SIN_TABLE.getD 16 0 = 190 := by decide
  have hc : COS_TABLE.getD 16 0 = 158 := by decide
  have ha : (16 * 90 / 32 * (Real.pi / 180) : ℝ) = Real.pi / 4 := by ring
  obtain ⟨l, u⟩ := sqrt_two_bounds
  refine ⟨hs, hc, ?_, ?_⟩
  · rw [hs, ha, Real.sin_pi_div_four, not_le, lt_abs]
    left
    push_cast
    linarith
  · rw [hc, ha, Real.cos_pi_div_four, not_le, lt_abs]
    right
    push_cast
    linarith

/-! ## Instances -/

/-- Instance of C2: a ball at pixel `(80, 50)` is 50 pixels above a paddle at
`(80, 100)`. -/
theorem paddle_reflect_miss_no_mutation_witness :
    pingpong_paddle_reflect
        { pingpong_ball_speed := 2, pingpong_max_angle := 60, pingpong_paddle_width := 16 }
        { x := 20480, y := 12800, vel_x := 0, vel_y := 512, angle := 270, active := 1 }
        80 100
      = some ({ x := 20480, y := 12800, vel_x := 0, vel_y := 512, angle := 270,
                active := 1 }, 0) :=
  paddle_reflect_miss_no_mutation
    { pingpong_ball_speed := 2, pingpong_max_angle := 60, pingpong_paddle_width := 16 }
    { x := 20480, y := 12800, vel_x := 0, vel_y := 512, angle := 270, active := 1 }
    80 100 (by decide) (Or.inl (by decide))

/-- Instance of C4: a ball at pixel `(80, 100)` falling on the centre of a
paddle at `(80, 100)`, with `paddle_width = 16` and `ball_speed = 2`. -/
theorem paddle_reflect_centre_witness :
    pingpong_paddle_reflect
        { pingpong_ball_speed := 2, pingpong_max_angle := 60, pingpong_paddle_width := 16 }
        { x := 20480, y := 25600, vel_x := 0, vel_y := 512, angle := 270, active := 1 }
        80 100
      = some ({ x := 20480, y := 25600, vel_x := 0, vel_y := -512, angle := 90,
                active := 1 }, 1) :=
  paddle_reflect_centre
    { pingpong_ball_speed := 2, pingpong_max_angle := 60, pingpong_paddle_width := 16 }
    { x := 20480, y := 25600, vel_x := 0, vel_y := 512, angle := 270, active := 1 }
    80 100 (by decide) (by decide) (by decide) (by decide) (by decide)

/-- Instance of C5: the left edge with `max_angle = 60` gives the angle 30. -/
theorem paddle_reflect_edge_angle_witness :
    ∃ b, pingpong_paddle_reflect
        { pingpong_ball_speed := 2, pingpong_max_angle := 60, pingpong_paddle_width := 16 }
        { x := 18432, y := 25600, vel_x := 0, vel_y := 512, angle := 270, active := 1 }
        80 100 = some (b, 1)
      ∧ (b.angle : Int) = 30 :=
  (paddle_reflect_edge_angle
    { pingpong_ball_speed := 2, pingpong_max_angle := 60, pingpong_paddle_width := 16 }
    { x := 18432, y := 25600, vel_x := 0, vel_y := 512, angle := 270, active := 1 }
    80 100 (by decide) (by decide) (by decide) (by decide) (by decide)).1 (by decide)

/-- Instance of C6: the collision of a ball at pixel `(84, 101)` with a paddle
at `(80, 100)` stores the angle 120 and `vel_y = -468`. -/
theorem paddle_reflect_launch_upward_witness :
    pingpong_paddle_reflect
        { pingpong_ball_speed := 2, pingpong_max_angle := 60, pingpong_paddle_width := 16 }
        { x := 21504, y := 25856, vel_x := 0, vel_y := 512, angle := 270, active := 1 }
        80 100
      = some ({ x := 21504, y := 25856, vel_x := -248, vel_y := -468, angle := 120,
                active := 1 }, 1)
    ∧ 30 ≤ (120 : Nat) ∧ (120 : Nat) ≤ 150 ∧ (-468 : Int) < 0 :=
  have h := paddle_reflect_launch_upward
    { pingpong_ball_speed := 2, pingpong_max_angle := 60, pingpong_paddle_width := 16 }
    { x := 21504, y := 25856, vel_x := 0, vel_y := 512, angle := 270, active := 1 }
    { x := 21504, y := 25856, vel_x := -248, vel_y := -468, angle := 120, active := 1 }
    80 100 (by decide)
  ⟨by decide, h.1, h.2.1, h.2.2 (by decide) (by decide)⟩

/-- Instance of C7 (amended): `ball_speed = 2`. -/
theorem init_velocity_cardinal_witness :
    (pingpong_init
        { pingpong_ball_speed := 2, pingpong_max_angle := 60, pingpong_paddle_width := 16 }
        80 100 90).vel_x = 0
    ∧ (pingpong_init
        { pingpong_ball_speed := 2, pingpong_max_angle := 60, pingpong_paddle_width := 16 }
        80 100 90).vel_y < 0
    ∧ (pingpong_init
        { pingpong_ball_speed := 2, pingpong_max_angle := 60, pingpong_paddle_width := 16 }
        80 100 0).vel_x > 0
    ∧ (pingpong_init
        { pingpong_ball_speed := 2, pingpong_max_angle := 60, pingpong_paddle_width := 16 }
        80 100 0).vel_y = 0 :=
  init_velocity_cardinal
    { pingpong_ball_speed := 2, pingpong_max_angle := 60, pingpong_paddle_width := 16 }
    80 100 (by decide) (by decide)

/-- Instance of C8: `pingpong_init(80, 100, 90)` with `ball_speed = 2`, then
one update, gives the pixel `(80, 98)` and the stored position
`(20480, 25088)`; a second update gives the pixel `(80, 96)`. -/
theorem init_update_moves_up_witness :
    (pingpong_update (pingpong_init
        { pingpong_ball_speed := 2, pingpong_max_angle := 60, pingpong_paddle_width := 16 }
        80 100 90)).2.1 = 80
    ∧ ((pingpong_update (pingpong_init
        { pingpong_ball_speed := 2, pingpong_max_angle := 60, pingpong_paddle_width := 16 }
        80 100 90)).2.2 : Int) = 98
    ∧ pingpong_is_active (pingpong_update (pingpong_init
        { pingpong_ball_speed := 2, pingpong_max_angle := 60, pingpong_paddle_width := 16 }
        80 100 90)).1 = 1
    ∧ (pingpong_update (pingpong_init
        { pingpong_ball_speed := 2, pingpong_max_angle := 60, pingpong_paddle_width := 16 }
        80 100 90)).1
        = { x := 20480, y := 25088, vel_x := 0, vel_y := -512, angle := 90, active := 1 }
    ∧ (pingpong_update (pingpong_update (pingpong_init
        { pingpong_ball_speed := 2, pingpong_max_angle := 60, pingpong_paddle_width := 16 }
        80 100 90)).1).2.1 = 80
    ∧ ((pingpong_update (pingpong_update (pingpong_init
        { pingpong_ball_speed := 2, pingpong_max_angle := 60, pingpong_paddle_width := 16 }
        80 100 90)).1).2.2 : Int) = 96 :=
  init_update_moves_up
    { pingpong_ball_speed := 2, pingpong_max_angle := 60, pingpong_paddle_width := 16 }
    80 100 (by decide) (by decide)

/-- Instance of C9: a moving ball that was deactivated stays where it is. -/
theorem update_inactive_witness :
    pingpong_update
        { x := 20480, y := 25600, vel_x := 0, vel_y := -512, angle := 90, active := 0 }
      = ({ x := 20480, y := 25600, vel_x := 0, vel_y := -512, angle := 90, active := 0 },
          0, 0) :=
  (update_inactive
    { x := 20480, y := 25600, vel_x := 0, vel_y := -512, angle := 90, active := 0 }).1 rfl

/-- Instance of C11: a ball whose two velocities are the most negative
16-bit value. -/
theorem reflect_twice_restores_witness :
    pingpong_reflect_horizontal (pingpong_reflect_horizontal
        { x := 20480, y := 25600, vel_x := -32768, vel_y := -32768, angle := 90, active := 1 })
      = { x := 20480, y := 25600, vel_x := -32768, vel_y := -32768, angle := 90, active := 1 }
    ∧ pingpong_reflect_vertical (pingpong_reflect_vertical
        { x := 20480, y := 25600, vel_x := -32768, vel_y := -32768, angle := 90, active := 1 })
      = { x := 20480, y := 25600, vel_x := -32768, vel_y := -32768, angle := 90, active := 1 } :=
  reflect_twice_restores
    { x := 20480, y := 25600, vel_x := -32768, vel_y := -32768, angle := 90, active := 1 }
    (by decide) (by decide) (by decide) (by decide)

/-- Instance of C14: `n = -128`. -/
theorem fp_int_round_trip_witness : FP_TO_INT (INT_TO_FP (-128)) = -128 :=
  fp_int_round_trip (-128) (by decide) (by decide)

/-- Instance of C17 (amended): `x = 384`, the value 1.5, is rounded to 2. -/
theorem fp_round_half_up_witness :
    FP_TO_INT_ROUND 384 = (384 + 128) / 256 ∧ ((384 : Int) + 128) / 256 = 2 :=
  ⟨fp_round_half_up 384 (by decide) (by decide), by decide⟩

/-- Instance of C15 (amended): the ball of `pingpong_init(80, 100, 90)` after
one update, after a deactivation, and the ball launched by a collision at
pixel `(84, 101)`. -/
theorem direction_invariant_preserved_witness :
    direction_invariant
        { pingpong_ball_speed := 2, pingpong_max_angle := 60, pingpong_paddle_width := 16 }
        (pingpong_update (pingpong_init
          { pingpong_ball_speed := 2, pingpong_max_angle := 60, pingpong_paddle_width := 16 }
          80 100 90)).1
    ∧ direction_invariant
        { pingpong_ball_speed := 2, pingpong_max_angle := 60, pingpong_paddle_width := 16 }
        (pingpong_set_active (pingpong_init
          { pingpong_ball_speed := 2, pingpong_max_angle := 60, pingpong_paddle_width := 16 }
          80 100 90) 0)
    ∧ direction_invariant
        { pingpong_ball_speed := 2, pingpong_max_angle := 60, pingpong_paddle_width := 16 }
        { x := 21504, y := 25856, vel_x := -248, vel_y := -468, angle := 120, active := 1 } :=
  have t := direction_invariant_preserved
    { pingpong_ball_speed := 2, pingpong_max_angle := 60, pingpong_paddle_width := 16 }
  ⟨t.2.2.2.1 _ (t.1 80 100 90), t.2.2.2.2 _ 0 (t.1 80 100 90),
    t.2.1
      { x := 21504, y := 25856, vel_x := 0, vel_y := 512, angle := 270, active := 1 }
      { x := 21504, y := 25856, vel_x := -248, vel_y := -468, angle := 120, active := 1 }
      80 100 (by decide)⟩

/-- Instance of C16 (amended): `paddle_width = 16`, `max_angle = 61`, ball at
pixel `(76, 100)`, paddle at `(80, 100)`: the stored angle 59 is
`clamp(90 + floor(-64 * 61 / 128), 30, 150)`. -/
theorem paddle_reflect_angle_formula_witness :
    ((59 : Nat) : Int) = FP_CLAMP (90
      + Int.tdiv (((toUBYTE (FP_TO_INT_ROUND 19456) : Int) - ((80 : Nat) : Int)) * 128)
          ((16 / 2 : Nat) : Int)
        * ((61 : Nat) : Int) / 128) 30 150 :=
  paddle_reflect_angle_formula
    { pingpong_ball_speed := 2, pingpong_max_angle := 61, pingpong_paddle_width := 16 }
    { x := 19456, y := 25600, vel_x := 0, vel_y := 512, angle := 270, active := 1 }
    { x := 19456, y := 25600, vel_x := 270, vel_y := -452, angle := 59, active := 1 }
    80 100 (by decide) (by decide) (by decide) (by decide)

/-- Instance of C20: with `paddle_width = 16` and `max_angle = 61`, balls at
pixels `(76, 100)` and `(84, 100)` on a paddle at `(80, 100)` get the angles
59 and 120. -/
theorem paddle_reflect_angle_monotone_witness :
    pingpong_paddle_reflect
        { pingpong_ball_speed := 2, pingpong_max_angle := 61, pingpong_paddle_width := 16 }
        { x := 19456, y := 25600, vel_x := 0, vel_y := 512, angle := 270, active := 1 }
        80 100
      = some ({ x := 19456, y := 25600, vel_x := 270, vel_y := -452, angle := 59,
                active := 1 }, 1)
    ∧ pingpong_paddle_reflect
        { pingpong_ball_speed := 2, pingpong_max_angle := 61, pingpong_paddle_width := 16 }
        { x := 21504, y := 25600, vel_x := 0, vel_y := 512, angle := 270, active := 1 }
        80 100
      = some ({ x := 21504, y := 25600, vel_x := -248, vel_y := -468, angle := 120,
                active := 1 }, 1)
    ∧ (59 : Nat) ≤ 120 :=
  ⟨by decide, by decide,
    paddle_reflect_angle_monotone
      { pingpong_ball_speed := 2, pingpong_max_angle := 61, pingpong_paddle_width := 16 }
      { x := 19456, y := 25600, vel_x := 0, vel_y := 512, angle := 270, active := 1 }
      { x := 21504, y := 25600, vel_x := 0, vel_y := 512, angle := 270, active := 1 }
      { x := 19456, y := 25600, vel_x := 270, vel_y := -452, angle := 59, active := 1 }
      { x := 21504, y := 25600, vel_x := -248, vel_y := -468, angle := 120, active := 1 }
      80 100 (by decide) (by decide) (by decide) (by decide) (by decide) (by decide)⟩

/-- Instance of C19 (amended): `d = 65445`, the largest input whose sum with
90 does not wrap, reduces to 285: `fp_sin(65445) = fp_sin(285) = -255` and
`fp_cos(65445) = fp_cos(285) = 63`, both within the bounds. -/
theorem trig_lookup_in_bounds_witness :
    fp_sin 65445 = fp_sin (65445 % 360)
    ∧ fp_cos 65445 = fp_cos (65445 % 360)
    ∧ fp_sin_index 65445 ≤ 32
    ∧ -256 ≤ fp_sin 65445 ∧ fp_sin 65445 ≤ 256
    ∧ -256 ≤ fp_cos 65445 ∧ fp_cos 65445 ≤ 256 :=
  have t := trig_lookup_in_bounds 65445
  ⟨t.1, t.2.1 (by decide), t.2.2.1, t.2.2.2.2.2.1, t.2.2.2.2.2.2.1,
    t.2.2.2.2.2.2.2.2.2.2.2.1, t.2.2.2.2.2.2.2.2.2.2.2.2⟩

end PingPong
